import Mathlib

/-!
Verification of the procedural noise/texture synthesis engine of
`src/features/NoiseGenerator.tsx`.

The engine is embedded shallowly:

* JavaScript numbers are modelled by `ℚ`. All the arithmetic the engine
  performs on in-range integer seeds and table values is exact in binary64,
  so the rational model is faithful there; the one place where JavaScript
  float *special values* (Infinity/NaN) matter — the fractal normalization
  at `persistence = 1`, which divides by `1 - persistence` — is modelled
  separately and faithfully by the `JsNum` type below, which carries the
  IEEE-754 special values.
* The JavaScript remainder operator `%` truncates towards zero (the result
  has the sign of the dividend); it is modelled by `Int.tmod`.
* The third-party `createNoise2D` from the `simplex-noise` package is
  not among the sources of this repository. Modelled from the spec: the Gradient
  kernel is an arbitrary deterministic function of the randomizer stream
  handed to it, so the pipeline is parameterized by
  `noise2D : (ℕ → ℚ) → ℚ → ℚ → ℚ` taking the output stream of the seeded
  randomizer (`createSeededRandom`) that `getSimplexNoiseFn` passes to the
  library.
* `Math.cos` composed with `Math.PI` in the value-noise interpolation is
  transcendental and has no exact rational form; the pipeline is
  parameterized by `cosPi : ℚ → ℚ` standing for `t ↦ Math.cos(t * Math.PI)`.
  Facts proved about value noise only assume `cosPi 0 = 1`, which holds
  exactly both for the real cosine and for IEEE-754 `Math.cos` at `0`.
* The canvas encoding step (`toDataURL`) is out of scope: the raster buffer
  of RGBA quadruples is the output of the engine in this model.
-/

/- ------------------------------------------------------------------ -/
/- SeededPRNG: `createSeededRandom` (NoiseGenerator.tsx lines 15-21)   -/
/- ------------------------------------------------------------------ -/

/-- One advance of the internal state of `createSeededRandom`:
`s = (s * 9301 + 49297) % 233280`, with JavaScript `%` (truncated
remainder, sign of the dividend). -/
def prngStep (s : ℤ) : ℤ := Int.tmod (s * 9301 + 49297) 233280

/-- Internal state of the closure returned by `createSeededRandom` after
`n` calls, starting from `seed`. -/
def prngState (seed : ℤ) : ℕ → ℤ
  | 0 => seed
  | n + 1 => prngStep (prngState seed n)

/-- The generator returned by `createSeededRandom seed`, viewed as the
stream of its return values: the `n`-th call advances the state and
returns `s / 233280`. -/
def createSeededRandom (seed : ℤ) (n : ℕ) : ℚ :=
  (prngState seed (n + 1) : ℚ) / 233280

/- ------------------------------------------------------------------ -/
/- `hexToRgb` (NoiseGenerator.tsx lines 280-294)                       -/
/- ------------------------------------------------------------------ -/

/-- The character class `[a-f\d]` of the two regexes in `hexToRgb`,
with the `/i` flag (so `A`-`F` as well), expressed on code points. -/
def isHexDigit (c : Char) : Bool :=
  (decide (48 ≤ c.toNat) && decide (c.toNat ≤ 57)) ||
  (decide (97 ≤ c.toNat) && decide (c.toNat ≤ 102)) ||
  (decide (65 ≤ c.toNat) && decide (c.toNat ≤ 70))

/-- Value of one hex digit, as `parseInt(·, 16)` assigns it. -/
def hexDigitVal (c : Char) : ℕ :=
  if 97 ≤ c.toNat then c.toNat - 87
  else if 65 ≤ c.toNat then c.toNat - 55
  else c.toNat - 48

/-- The shorthand expansion step of `hexToRgb`: the whole-string regex
`^#?([a-f\d])([a-f\d])([a-f\d])$` is replaced by `r+r+g+g+b+b` (the
optional leading `#` is part of the match and is dropped by the
replacement). Strings not matching are left unchanged. -/
def expandShorthand (cs : List Char) : List Char :=
  match cs with
  | [a, b, c] =>
    if isHexDigit a && isHexDigit b && isHexDigit c then [a, a, b, b, c, c] else cs
  | [h, a, b, c] =>
    if h = '#' && (isHexDigit a && isHexDigit b && isHexDigit c) then [a, a, b, b, c, c] else cs
  | _ => cs

/-- The main regex `^#?([a-f\d]{2})([a-f\d]{2})([a-f\d]{2})$` of
`hexToRgb`, with each captured pair parsed by `parseInt(·, 16)`. -/
def parseHex6 (cs : List Char) : Option (ℕ × ℕ × ℕ) :=
  match cs with
  | [a, b, c, d, e, f] =>
    if isHexDigit a && isHexDigit b && isHexDigit c &&
       isHexDigit d && isHexDigit e && isHexDigit f then
      some (16 * hexDigitVal a + hexDigitVal b,
            16 * hexDigitVal c + hexDigitVal d,
            16 * hexDigitVal e + hexDigitVal f)
    else none
  | [h, a, b, c, d, e, f] =>
    if h = '#' && (isHexDigit a && isHexDigit b && isHexDigit c &&
       isHexDigit d && isHexDigit e && isHexDigit f) then
      some (16 * hexDigitVal a + hexDigitVal b,
            16 * hexDigitVal c + hexDigitVal d,
            16 * hexDigitVal e + hexDigitVal f)
    else none
  | _ => none

/-- Model of `hexToRgb`: expand the 3-digit shorthand, then parse the 6-digit
form; `null` (here `none`) when the string matches neither. -/
def hexToRgb (s : String) : Option (ℕ × ℕ × ℕ) :=
  parseHex6 (expandShorthand s.data)

/-- Written from the words of the claim, for comparison with `hexToRgb`:
a string parses as a hexadecimal color when, after an optional leading
`#`, it consists of exactly 3 or exactly 6 hexadecimal digits. -/
def isHexColorString (s : String) : Bool :=
  let cs := if s.data.headD 'x' = '#' then s.data.tail else s.data
  (decide (cs.length = 3) || decide (cs.length = 6)) && cs.all isHexDigit

/- ------------------------------------------------------------------ -/
/- Noise kernels (NoiseGenerator.tsx lines 23-111)                     -/
/- ------------------------------------------------------------------ -/

/-- Model of `getSimplexNoiseFn`: hands the seeded randomizer to the
library function `createNoise2D`. `noise2D` is the model parameter standing for the
library function (see the header comment). -/
def getSimplexNoiseFn (noise2D : (ℕ → ℚ) → ℚ → ℚ → ℚ) (seed : ℤ) : ℚ → ℚ → ℚ :=
  noise2D (createSeededRandom seed)

/-- The precomputed table of `getWhiteNoiseFn`: `width * height` draws of
the seeded randomizer, each mapped to `[-1, 1]` by `rand() * 2 - 1`. -/
def whiteNoiseMap (seed : ℤ) (width height : ℕ) : List ℚ :=
  (List.range (width * height)).map (fun n => createSeededRandom seed n * 2 - 1)

/-- Model of `getWhiteNoiseFn` (lines 30-45): nearest-pixel lookup into the
precomputed table, returning `0` when the flat index falls outside it. -/
def getWhiteNoiseFn (seed : ℤ) (width height : ℕ) (x y : ℚ) : ℚ :=
  let pixelX : ℤ := ⌊x * width⌋
  let pixelY : ℤ := ⌊y * height⌋
  let index : ℤ := pixelY * width + pixelX
  if 0 ≤ index ∧ index < (width * height : ℤ) then
    (whiteNoiseMap seed width height).getD index.toNat 0
  else 0

/-- The `values` grid of `getBasicValueNoiseFn`: `values[i][j]` is draw
number `i * (gridSize + 1) + j` of the seeded randomizer (`i` is the
outer loop, `j` the inner). -/
def valueGrid (seed : ℤ) (gridSize : ℕ) (i j : ℕ) : ℚ :=
  createSeededRandom seed (i * (gridSize + 1) + j)

/-- The cosine interpolation helper of `getBasicValueNoiseFn`:
`ft = t * PI; f = (1 - cos ft) * 0.5; a * (1 - f) + b * f`.
`cosPi` stands for `t ↦ Math.cos(t * Math.PI)`. -/
def interpolate (cosPi : ℚ → ℚ) (a b t : ℚ) : ℚ :=
  let f := (1 - cosPi t) * (1 / 2)
  a * (1 - f) + b * f

/-- The corner index the value-noise kernel reads for coordinate `x`:
`x0 = Math.floor(x * gridSize)` taken `% (gridSize + 1)` (JavaScript
`%`, hence `Int.tmod`). -/
def valueCornerIndex (gridSize : ℕ) (x : ℚ) : ℤ :=
  Int.tmod ⌊x * gridSize⌋ (gridSize + 1)

/-- Model of `getBasicValueNoiseFn` (lines 48-90): bilinear cosine interpolation
of the four surrounding grid corners, indices wrapped `% (gridSize+1)`,
result mapped to `[-1, 1]`. Grid lookups are modelled for the
nonnegative coordinates the engine feeds in (for negative coordinates
JavaScript would index `values` with a negative number and read
`undefined`). -/
def getBasicValueNoiseFn (cosPi : ℚ → ℚ) (seed : ℤ) (gridSize : ℕ) (x y : ℚ) : ℚ :=
  let gx := x * gridSize
  let gy := y * gridSize
  let x0 : ℤ := ⌊gx⌋
  let y0 : ℤ := ⌊gy⌋
  let x1 : ℤ := x0 + 1
  let y1 : ℤ := y0 + 1
  let fx : ℚ := gx - x0
  let fy : ℚ := gy - y0
  let v00 := valueGrid seed gridSize (Int.tmod x0 (gridSize + 1)).toNat (Int.tmod y0 (gridSize + 1)).toNat
  let v01 := valueGrid seed gridSize (Int.tmod x0 (gridSize + 1)).toNat (Int.tmod y1 (gridSize + 1)).toNat
  let v10 := valueGrid seed gridSize (Int.tmod x1 (gridSize + 1)).toNat (Int.tmod y0 (gridSize + 1)).toNat
  let v11 := valueGrid seed gridSize (Int.tmod x1 (gridSize + 1)).toNat (Int.tmod y1 (gridSize + 1)).toNat
  let i1 := interpolate cosPi v00 v10 fx
  let i2 := interpolate cosPi v01 v11 fx
  interpolate cosPi i1 i2 fy * 2 - 1

/-- Model of `getActiveNoiseFunction` (lines 95-111): string dispatch; `Perlin`,
`Worley`, `Cellular` and every unrecognized label fall through to the
Simplex kernel. -/
def getActiveNoiseFunction (noise2D : (ℕ → ℚ) → ℚ → ℚ → ℚ) (cosPi : ℚ → ℚ)
    (noiseType : String) (seed : ℤ) (width height : ℕ) : ℚ → ℚ → ℚ :=
  if noiseType = "Simplex" then getSimplexNoiseFn noise2D seed
  else if noiseType = "WhiteNoise" then getWhiteNoiseFn seed width height
  else if noiseType = "Value" then getBasicValueNoiseFn cosPi seed 16
  else getSimplexNoiseFn noise2D seed

/- ------------------------------------------------------------------ -/
/- Fractal compositing (NoiseGenerator.tsx lines 114-163)              -/
/- ------------------------------------------------------------------ -/

/-- The per-octave transform, the `switch` inside `applyFractalNoise`
(lines 129-152): `None`, `FBM` and unrecognized types leave the value
unchanged; `IQ` is `1 / (abs v + 0.1)` re-normalized by
`min(1, max(-1, v * 0.2 - 0.5))`. -/
def fractalTransform (fractalType : String) (v : ℚ) : ℚ :=
  if fractalType = "FBM" then v
  else if fractalType = "Billow" then |v| * 2 - 1
  else if fractalType = "Ridged" then 1 - |v|
  else if fractalType = "Turbulence" then |v|
  else if fractalType = "IQ" then min 1 (max (-1) (1 / (|v| + 1 / 10) * (1 / 5) - 1 / 2))
  else v

/-- The octave loop of `applyFractalNoise` (lines 125-157), threading
the accumulator and the current amplitude/frequency exactly as the
`for` loop does. -/
def fractalSum (noiseFn : ℚ → ℚ → ℚ) (x y : ℚ) (fractalType : String)
    (persistence lacunarity : ℚ) : ℕ → ℚ → ℚ → ℚ → ℚ
  | 0, total, _, _ => total
  | n + 1, total, curAmp, curFreq =>
    fractalSum noiseFn x y fractalType persistence lacunarity n
      (total + fractalTransform fractalType (noiseFn (x * curFreq) (y * curFreq)) * curAmp)
      (curAmp * persistence) (curFreq * lacunarity)

/-- Model of `applyFractalNoise` (lines 114-163): octave sum followed by the
approximate normalization
`(total + amplitude * (1/(1-persistence))) / (2 * amplitude * (1/(1-persistence)))`.
Over `ℚ`, `1 / 0 = 0`, so this definition is faithful to the JavaScript
float computation only for `persistence ≠ 1`; the `persistence = 1`
behavior (Infinity/Infinity = NaN) is modelled by `jsApplyFractalNoise`
below. -/
def applyFractalNoise (noiseFn : ℚ → ℚ → ℚ) (x y frequency amplitude : ℚ)
    (octaves : ℕ) (persistence lacunarity : ℚ) (fractalType : String) : ℚ :=
  let total := fractalSum noiseFn x y fractalType persistence lacunarity octaves 0 amplitude frequency
  (total + amplitude * (1 / (1 - persistence))) / (2 * amplitude * (1 / (1 - persistence)))

/- ------------------------------------------------------------------ -/
/- Image synthesis (NoiseGenerator.tsx lines 165-277, 360-396)         -/
/- ------------------------------------------------------------------ -/

/-- The parameter record destructured by `generateNoiseImage`
(lines 180-194). `imageFormat` and `quality` only affect the canvas
encoding step, which is outside this model. -/
structure NoiseParams where
  width : ℤ
  height : ℤ
  seed : ℤ
  frequency : ℚ
  amplitude : ℚ
  backgroundColor : String
  noiseType : String
  fractalType : String
  domainWrap : Bool
  octaves : ℤ
  persistence : ℚ
  lacunarity : ℚ
deriving DecidableEq

/-- The scalar `noiseVal` computed at already-warped normalized
coordinates `(nx, ny)` (lines 242-255): the raw-kernel path when
`fractalType` is the string None, the fractal path otherwise. -/
def noiseValAtCoords (noise2D : (ℕ → ℚ) → ℚ → ℚ → ℚ) (cosPi : ℚ → ℚ)
    (p : NoiseParams) (nx ny : ℚ) : ℚ :=
  let noiseFn := getActiveNoiseFunction noise2D cosPi p.noiseType p.seed p.width.toNat p.height.toNat
  if p.fractalType = "None" then
    (noiseFn (nx * p.frequency) (ny * p.frequency) * p.amplitude + p.amplitude) / (2 * p.amplitude)
  else
    applyFractalNoise noiseFn nx ny p.frequency p.amplitude p.octaves.toNat
      p.persistence p.lacunarity p.fractalType

/-- The per-pixel `noiseVal` of the loop body (lines 226-255): normalize
the pixel coordinates, apply the optional domain warp (two extra
Simplex kernels at `seed + 100` and `seed + 200`, `wrapStrength = 0.05`),
then evaluate the noise. -/
def pixelNoiseVal (noise2D : (ℕ → ℚ) → ℚ → ℚ → ℚ) (cosPi : ℚ → ℚ)
    (p : NoiseParams) (x y : ℕ) : ℚ :=
  let nx : ℚ := (x : ℚ) / (p.width : ℚ)
  let ny : ℚ := (y : ℚ) / (p.height : ℚ)
  if p.domainWrap then
    let wrapStrength : ℚ := 1 / 20
    let offsetX := getSimplexNoiseFn noise2D (p.seed + 100) (nx * 5) (ny * 5) * wrapStrength
    let offsetY := getSimplexNoiseFn noise2D (p.seed + 200) (nx * 5) (ny * 5) * wrapStrength
    noiseValAtCoords noise2D cosPi p (nx + offsetX) (ny + offsetY)
  else
    noiseValAtCoords noise2D cosPi p nx ny

/-- The final safety clamp `Math.max(0, Math.min(1, noiseVal))`
(line 258). -/
def clamp01 (v : ℚ) : ℚ := max 0 (min 1 v)

/-- One RGBA pixel (lines 258-268): clamp the noise value, interpolate
each channel between the background color and white with
`Math.floor`, alpha fixed at 255. -/
def pixelRGBA (noise2D : (ℕ → ℚ) → ℚ → ℚ → ℚ) (cosPi : ℚ → ℚ)
    (p : NoiseParams) (bg : ℕ × ℕ × ℕ) (x y : ℕ) : ℤ × ℤ × ℤ × ℤ :=
  let v := clamp01 (pixelNoiseVal noise2D cosPi p x y)
  (⌊(bg.1 : ℚ) * (1 - v) + 255 * v⌋,
   ⌊(bg.2.1 : ℚ) * (1 - v) + 255 * v⌋,
   ⌊(bg.2.2 : ℚ) * (1 - v) + 255 * v⌋,
   255)

/-- The full raster buffer, row-major as the nested loops write it
(`y` outer, `x` inner, lines 225-270). -/
def renderBuffer (noise2D : (ℕ → ℚ) → ℚ → ℚ → ℚ) (cosPi : ℚ → ℚ)
    (p : NoiseParams) (bg : ℕ × ℕ × ℕ) : List (ℤ × ℤ × ℤ × ℤ) :=
  (List.range p.height.toNat).flatMap fun y =>
    (List.range p.width.toNat).map fun x => pixelRGBA noise2D cosPi p bg x y

/-- Model of `generateNoiseImage` (lines 165-277): parse the background color,
rejecting before any pixel work when it is invalid, then fill the
buffer. -/
def generateNoiseImage (noise2D : (ℕ → ℚ) → ℚ → ℚ → ℚ) (cosPi : ℚ → ℚ)
    (p : NoiseParams) : Except String (List (ℤ × ℤ × ℤ × ℤ)) :=
  match hexToRgb p.backgroundColor with
  | none => Except.error "Invalid background color format."
  | some bgRgb => Except.ok (renderBuffer noise2D cosPi p bgRgb)

/-- Model of `handleGenerateNoise` (lines 360-396): dimension and octave
validation before `generateNoiseImage` is invoked; `octaves` is forced
to 1 when `fractalType` is the string None. -/
def handleGenerateNoise (noise2D : (ℕ → ℚ) → ℚ → ℚ → ℚ) (cosPi : ℚ → ℚ)
    (width height seed : ℤ) (frequency amplitude : ℚ) (backgroundColor : String)
    (noiseType fractalType : String) (domainWrap : Bool) (octaves : ℤ)
    (persistence lacunarity : ℚ) : Except String (List (ℤ × ℤ × ℤ × ℤ)) :=
  if width ≤ 0 ∨ height ≤ 0 then
    Except.error "Width and Height must be positive numbers."
  else if fractalType ≠ "None" ∧ octaves ≤ 0 then
    Except.error "Octaves must be a positive number for fractal noise types."
  else
    generateNoiseImage noise2D cosPi
      { width := width, height := height, seed := seed, frequency := frequency,
        amplitude := amplitude, backgroundColor := backgroundColor,
        noiseType := noiseType, fractalType := fractalType, domainWrap := domainWrap,
        octaves := if fractalType = "None" then 1 else octaves,
        persistence := persistence, lacunarity := lacunarity }

/- ------------------------------------------------------------------ -/
/- JsNum: IEEE-754 special values for the persistence = 1 edge case    -/
/- ------------------------------------------------------------------ -/

/-- A JavaScript number: a finite value (idealized as an exact
rational — every operation the engine performs on the path analyzed
with this type is rounding-independent), `Infinity`, `-Infinity` or
`NaN`. -/
inductive JsNum where
  | num : ℚ → JsNum
  | posInf : JsNum
  | negInf : JsNum
  | nan : JsNum
deriving DecidableEq

/-- JavaScript `+` on `JsNum`. -/
def JsNum.add : JsNum → JsNum → JsNum
  | num a, num b => num (a + b)
  | nan, _ => nan
  | _, nan => nan
  | posInf, negInf => nan
  | negInf, posInf => nan
  | posInf, _ => posInf
  | _, posInf => posInf
  | negInf, _ => negInf
  | _, negInf => negInf

/-- JavaScript `-` on `JsNum`. -/
def JsNum.sub : JsNum → JsNum → JsNum
  | num a, num b => num (a - b)
  | nan, _ => nan
  | _, nan => nan
  | posInf, posInf => nan
  | negInf, negInf => nan
  | posInf, _ => posInf
  | _, negInf => posInf
  | negInf, _ => negInf
  | _, posInf => negInf

/-- JavaScript `*` on `JsNum` (`Infinity * 0 = NaN`). -/
def JsNum.mul : JsNum → JsNum → JsNum
  | num a, num b => num (a * b)
  | nan, _ => nan
  | _, nan => nan
  | posInf, posInf => posInf
  | posInf, negInf => negInf
  | negInf, posInf => negInf
  | negInf, negInf => posInf
  | posInf, num b => if 0 < b then posInf else if b < 0 then negInf else nan
  | num a, posInf => if 0 < a then posInf else if a < 0 then negInf else nan
  | negInf, num b => if 0 < b then negInf else if b < 0 then posInf else nan
  | num a, negInf => if 0 < a then negInf else if a < 0 then posInf else nan

/-- JavaScript `/` on `JsNum` (`x / 0` is a signed infinity for
`x ≠ 0` — rationals carry no negative zero, and none arises on the
analyzed path — `0 / 0` and `Infinity / Infinity` are `NaN`). -/
def JsNum.div : JsNum → JsNum → JsNum
  | nan, _ => nan
  | _, nan => nan
  | num a, num b =>
    if b = 0 then (if 0 < a then posInf else if a < 0 then negInf else nan)
    else num (a / b)
  | num _, posInf => num 0
  | num _, negInf => num 0
  | posInf, num b => if 0 ≤ b then posInf else negInf
  | negInf, num b => if 0 ≤ b then negInf else posInf
  | posInf, _ => nan
  | negInf, _ => nan

/-- JavaScript `Math.abs` on `JsNum`. -/
def JsNum.abs : JsNum → JsNum
  | num a => num |a|
  | posInf => posInf
  | negInf => posInf
  | nan => nan

/-- JavaScript `Math.min` on `JsNum` (any `NaN` argument wins). -/
def JsNum.min : JsNum → JsNum → JsNum
  | nan, _ => nan
  | _, nan => nan
  | num a, num b => num (Min.min a b)
  | posInf, b => b
  | a, posInf => a
  | negInf, _ => negInf
  | _, negInf => negInf

/-- JavaScript `Math.max` on `JsNum` (any `NaN` argument wins). -/
def JsNum.max : JsNum → JsNum → JsNum
  | nan, _ => nan
  | _, nan => nan
  | num a, num b => num (Max.max a b)
  | negInf, b => b
  | a, negInf => a
  | posInf, _ => posInf
  | _, posInf => posInf

/-- The per-octave transform of `applyFractalNoise`, on `JsNum`. -/
def jsFractalTransform (fractalType : String) (v : JsNum) : JsNum :=
  if fractalType = "FBM" then v
  else if fractalType = "Billow" then JsNum.sub (JsNum.mul v.abs (JsNum.num 2)) (JsNum.num 1)
  else if fractalType = "Ridged" then JsNum.sub (JsNum.num 1) v.abs
  else if fractalType = "Turbulence" then v.abs
  else if fractalType = "IQ" then
    JsNum.min (JsNum.num 1) (JsNum.max (JsNum.num (-1))
      (JsNum.sub (JsNum.mul (JsNum.div (JsNum.num 1) (JsNum.add v.abs (JsNum.num (1 / 10)))) (JsNum.num (1 / 5))) (JsNum.num (1 / 2))))
  else v

/-- The octave loop of `applyFractalNoise`, on `JsNum`. -/
def jsFractalSum (noiseFn : JsNum → JsNum → JsNum) (x y : JsNum) (fractalType : String)
    (persistence lacunarity : JsNum) : ℕ → JsNum → JsNum → JsNum → JsNum
  | 0, total, _, _ => total
  | n + 1, total, curAmp, curFreq =>
    jsFractalSum noiseFn x y fractalType persistence lacunarity n
      (JsNum.add total (JsNum.mul (jsFractalTransform fractalType (noiseFn (JsNum.mul x curFreq) (JsNum.mul y curFreq))) curAmp))
      (JsNum.mul curAmp persistence) (JsNum.mul curFreq lacunarity)

/-- Model of `applyFractalNoise` on `JsNum`, faithful to the JavaScript float
behavior of the normalization at `persistence = 1`
(`1 / (1 - 1) = Infinity`, and `Infinity / Infinity = NaN`). -/
def jsApplyFractalNoise (noiseFn : JsNum → JsNum → JsNum) (x y frequency amplitude : JsNum)
    (octaves : ℕ) (persistence lacunarity : JsNum) (fractalType : String) : JsNum :=
  let total := jsFractalSum noiseFn x y fractalType persistence lacunarity octaves (JsNum.num 0) amplitude frequency
  let inv := JsNum.div (JsNum.num 1) (JsNum.sub (JsNum.num 1) persistence)
  JsNum.div (JsNum.add total (JsNum.mul amplitude inv)) (JsNum.mul (JsNum.mul (JsNum.num 2) amplitude) inv)

/-- The white-noise kernel on `JsNum`. For finite arguments it performs
only exact table arithmetic and agrees with the rational model; for a
non-finite argument JavaScript computes a `NaN` index, both bound
checks are false, `noiseMap[NaN]` is `undefined`, and the value
poisons the following arithmetic as `NaN`. -/
def jsGetWhiteNoiseFn (seed : ℤ) (width height : ℕ) : JsNum → JsNum → JsNum
  | JsNum.num a, JsNum.num b => JsNum.num (getWhiteNoiseFn seed width height a b)
  | _, _ => JsNum.nan

/-- Model of `getActiveNoiseFunction` on `JsNum`; the Simplex and Value kernels
are model parameters as in the rational embedding. -/
def jsGetActiveNoiseFunction (jsSimplex : ℤ → JsNum → JsNum → JsNum)
    (jsValue : ℤ → JsNum → JsNum → JsNum) (noiseType : String) (seed : ℤ)
    (width height : ℕ) : JsNum → JsNum → JsNum :=
  if noiseType = "Simplex" then jsSimplex seed
  else if noiseType = "WhiteNoise" then jsGetWhiteNoiseFn seed width height
  else if noiseType = "Value" then jsValue seed
  else jsSimplex seed

/-- The per-pixel `noiseVal` on `JsNum` (lines 226-255), before the
final clamp. -/
def jsPixelNoiseVal (jsSimplex : ℤ → JsNum → JsNum → JsNum)
    (jsValue : ℤ → JsNum → JsNum → JsNum) (p : NoiseParams) (x y : ℕ) : JsNum :=
  let nx := JsNum.div (JsNum.num x) (JsNum.num p.width)
  let ny := JsNum.div (JsNum.num y) (JsNum.num p.height)
  let warped :=
    if p.domainWrap then
      let wrapStrength := JsNum.num (1 / 20)
      let offsetX := JsNum.mul (jsSimplex (p.seed + 100) (JsNum.mul nx (JsNum.num 5)) (JsNum.mul ny (JsNum.num 5))) wrapStrength
      let offsetY := JsNum.mul (jsSimplex (p.seed + 200) (JsNum.mul nx (JsNum.num 5)) (JsNum.mul ny (JsNum.num 5))) wrapStrength
      (JsNum.add nx offsetX, JsNum.add ny offsetY)
    else (nx, ny)
  let noiseFn := jsGetActiveNoiseFunction jsSimplex jsValue p.noiseType p.seed p.width.toNat p.height.toNat
  let qf := JsNum.num p.frequency
  let qa := JsNum.num p.amplitude
  if p.fractalType = "None" then
    JsNum.div (JsNum.add (JsNum.mul (noiseFn (JsNum.mul warped.1 qf) (JsNum.mul warped.2 qf)) qa) qa) (JsNum.mul (JsNum.num 2) qa)
  else
    jsApplyFractalNoise noiseFn warped.1 warped.2 qf qa p.octaves.toNat
      (JsNum.num p.persistence) (JsNum.num p.lacunarity) p.fractalType

/-- The final clamp `Math.max(0, Math.min(1, noiseVal))` on `JsNum`
(`NaN` passes through both). -/
def jsClamp01 (v : JsNum) : JsNum := JsNum.max (JsNum.num 0) (JsNum.min (JsNum.num 1) v)

/- ------------------------------------------------------------------ -/
/- Concrete fixtures used to instantiate the general theorems          -/
/- ------------------------------------------------------------------ -/

/-- A trivial instantiation of the library-kernel parameter. -/
def zeroNoise2D : (ℕ → ℚ) → ℚ → ℚ → ℚ := fun _ _ _ => 0

/-- A function with `oneCosPi 0 = 1`, as `t ↦ Math.cos(t * Math.PI)`
has at `t = 0` (the only point at which the instantiated value-noise
facts evaluate it). -/
def oneCosPi : ℚ → ℚ := fun _ => 1

/-- Trivial instantiation of the `JsNum` Simplex-kernel parameter. -/
def jsZeroSimplex : ℤ → JsNum → JsNum → JsNum := fun _ _ _ => JsNum.num 0

/-- Trivial instantiation of the `JsNum` Value-kernel parameter. -/
def jsZeroValue : ℤ → JsNum → JsNum → JsNum := fun _ _ _ => JsNum.num 0

/-- A valid parameter set (4x4, Simplex/FBM, black background). -/
def sampleParams : NoiseParams :=
  { width := 4, height := 4, seed := 42, frequency := 1 / 50, amplitude := 1,
    backgroundColor := "#000000", noiseType := "Simplex", fractalType := "FBM",
    domainWrap := false, octaves := 4, persistence := 1 / 2, lacunarity := 2 }

/-- The set `sampleParams` with the domain warp enabled. -/
def warpSampleParams : NoiseParams := { sampleParams with domainWrap := true }

/-- A valid parameter set sitting at the `persistence = 1` edge of the
documented range `(0,1]`: a 1x1 white-noise image, one FBM octave. -/
def persistenceOneParams : NoiseParams :=
  { width := 1, height := 1, seed := 0, frequency := 1 / 50, amplitude := 1,
    backgroundColor := "#000000", noiseType := "WhiteNoise", fractalType := "FBM",
    domainWrap := false, octaves := 1, persistence := 1, lacunarity := 2 }

/- ------------------------------------------------------------------ -/
/- Helper lemmas                                                       -/
/- ------------------------------------------------------------------ -/

/-- For a nonnegative start state, `prngStep` lands in `[0, 233280)`. -/
theorem prngStep_bounds (s : ℤ) (hs : 0 ≤ s) :
    0 ≤ prngStep s ∧ prngStep s < 233280 := by
  constructor
  · exact Int.tmod_nonneg _ (by positivity)
  · exact Int.tmod_lt_of_pos _ (by norm_num)

/-- Starting from a nonnegative seed, the internal PRNG state stays
nonnegative. -/
theorem prngState_nonneg (seed : ℤ) (hs : 0 ≤ seed) (n : ℕ) :
    0 ≤ prngState seed n := by
  induction n with
  | zero => exact hs
  | succ n ih => exact (prngStep_bounds _ ih).1

/-- Starting from a nonnegative seed, every value the generator returns
lies in `[0, 1)`. -/
theorem createSeededRandom_bounds (seed : ℤ) (hs : 0 ≤ seed) (n : ℕ) :
    0 ≤ createSeededRandom seed n ∧ createSeededRandom seed n < 1 := by
  have h := prngStep_bounds (prngState seed n) (prngState_nonneg seed hs n)
  unfold createSeededRandom
  have hstep : prngState seed (n + 1) = prngStep (prngState seed n) := rfl
  rw [hstep]
  constructor
  · apply div_nonneg _ (by norm_num)
    exact_mod_cast h.1
  · rw [div_lt_one (by norm_num)]
    exact_mod_cast h.2

/-- Entry `k` of the white-noise table is draw `k` mapped to
`[-1, 1)`. -/
theorem whiteNoiseMap_getD (seed : ℤ) (w h k : ℕ) (hk : k < w * h) :
    (whiteNoiseMap seed w h).getD k 0 = createSeededRandom seed k * 2 - 1 := by
  unfold whiteNoiseMap
  rw [List.getD_eq_getElem?_getD, List.getElem?_map, List.getElem?_range hk]
  rfl

/-- Parsing succeeds exactly on the strings that are an optional
`#` followed by 3 or 6 hex digits. -/
theorem hexToRgb_isSome_eq (s : String) : (hexToRgb s).isSome = isHexColorString s := by
  obtain ⟨cs⟩ := s
  show (parseHex6 (expandShorthand cs)).isSome = isHexColorString ⟨cs⟩
  rcases cs with _ | ⟨a, _ | ⟨b, _ | ⟨c, _ | ⟨d, _ | ⟨e, _ | ⟨f, _ | ⟨g, rest⟩⟩⟩⟩⟩⟩⟩
  · rfl
  · by_cases ha : a = '#' <;> simp [isHexColorString, expandShorthand, parseHex6, ha]
  · by_cases ha : a = '#' <;> simp [isHexColorString, expandShorthand, parseHex6, ha]
  · by_cases ha : a = '#'
    · subst ha
      have h1 : isHexDigit '#' = false := by decide
      simp [isHexColorString, expandShorthand, parseHex6, h1]
    · cases hA : isHexDigit a <;> cases hB : isHexDigit b <;> cases hC : isHexDigit c <;>
        simp [isHexColorString, expandShorthand, parseHex6, ha, hA, hB, hC]
  · by_cases ha : a = '#'
    · subst ha
      cases hB : isHexDigit b <;> cases hC : isHexDigit c <;> cases hD : isHexDigit d <;>
        simp [isHexColorString, expandShorthand, parseHex6, hB, hC, hD]
    · simp [isHexColorString, expandShorthand, parseHex6, ha]
  · by_cases ha : a = '#' <;> simp [isHexColorString, expandShorthand, parseHex6, ha]
  · by_cases ha : a = '#'
    · subst ha
      have h1 : isHexDigit '#' = false := by decide
      simp [isHexColorString, expandShorthand, parseHex6, h1]
    · cases hA : isHexDigit a <;> cases hB : isHexDigit b <;> cases hC : isHexDigit c <;>
        cases hD : isHexDigit d <;> cases hE : isHexDigit e <;> cases hF : isHexDigit f <;>
        simp [isHexColorString, expandShorthand, parseHex6, ha, hA, hB, hC, hD, hE, hF]
  · rcases rest with _ | ⟨h8, rest2⟩
    · by_cases ha : a = '#'
      · subst ha
        cases hB : isHexDigit b <;> cases hC : isHexDigit c <;> cases hD : isHexDigit d <;>
          cases hE : isHexDigit e <;> cases hF : isHexDigit f <;> cases hG : isHexDigit g <;>
          simp [isHexColorString, expandShorthand, parseHex6, hB, hC, hD, hE, hF, hG]
      · simp [isHexColorString, expandShorthand, parseHex6, ha]
    · by_cases ha : a = '#' <;>
        simp [isHexColorString, expandShorthand, parseHex6, ha]

/-- A hex digit parses to at most 15. -/
theorem hexDigitVal_le_15 (c : Char) (h : isHexDigit c = true) : hexDigitVal c ≤ 15 := by
  simp [isHexDigit] at h
  unfold hexDigitVal
  split_ifs <;> omega

/-- The components `parseHex6` produces are bytes. -/
theorem parseHex6_components_le (cs : List Char) (r g b : ℕ)
    (h : parseHex6 cs = some (r, g, b)) : r ≤ 255 ∧ g ≤ 255 ∧ b ≤ 255 := by
  rw [parseHex6.eq_def] at h
  split at h
  · rename_i a bb c d e f
    split_ifs at h with hc
    · simp only [Option.some.injEq, Prod.mk.injEq] at h
      obtain ⟨h1, h2, h3⟩ := h
      simp only [Bool.and_eq_true] at hc
      have := hexDigitVal_le_15 a (by tauto)
      have := hexDigitVal_le_15 bb (by tauto)
      have := hexDigitVal_le_15 c (by tauto)
      have := hexDigitVal_le_15 d (by tauto)
      have := hexDigitVal_le_15 e (by tauto)
      have := hexDigitVal_le_15 f (by tauto)
      omega
  · rename_i hh a bb c d e f
    split_ifs at h with hc
    · simp only [Option.some.injEq, Prod.mk.injEq] at h
      obtain ⟨h1, h2, h3⟩ := h
      simp only [Bool.and_eq_true] at hc
      have := hexDigitVal_le_15 a (by tauto)
      have := hexDigitVal_le_15 bb (by tauto)
      have := hexDigitVal_le_15 c (by tauto)
      have := hexDigitVal_le_15 d (by tauto)
      have := hexDigitVal_le_15 e (by tauto)
      have := hexDigitVal_le_15 f (by tauto)
      omega
  · exact absurd h (by simp)

/-- The components `hexToRgb` produces are bytes. -/
theorem hexToRgb_components_le (s : String) (r g b : ℕ)
    (h : hexToRgb s = some (r, g, b)) : r ≤ 255 ∧ g ≤ 255 ∧ b ≤ 255 :=
  parseHex6_components_le _ r g b h

/- ------------------------------------------------------------------ -/
/- Claim theorems                                                      -/
/- ------------------------------------------------------------------ -/

/-- C2 (amended): for every nonnegative seed in 32-bit range, the
generator follows the recurrence `s = (s * 9301 + 49297) mod 233280`
with the mathematical (nonnegative) modulus, and every value it
returns lies in `[0, 1)`; the sequence is a pure function of the seed. -/
theorem createSeededRandom_contract (seed : ℤ) (h0 : 0 ≤ seed) (h32 : seed < 2 ^ 32) (n : ℕ) :
    prngState seed (n + 1) = (prngState seed n * 9301 + 49297) % 233280
    ∧ 0 ≤ createSeededRandom seed n ∧ createSeededRandom seed n < 1 := by
  refine ⟨?_, (createSeededRandom_bounds seed h0 n).1, (createSeededRandom_bounds seed h0 n).2⟩
  show Int.tmod (prngState seed n * 9301 + 49297) 233280 = _
  exact Int.tmod_eq_emod (by have := prngState_nonneg seed h0 n; positivity) (by norm_num)

/-- Witness for C2 at seed 42, first call. -/
theorem createSeededRandom_contract_witness :
    prngState 42 1 = (prngState 42 0 * 9301 + 49297) % 233280
    ∧ 0 ≤ createSeededRandom 42 0 ∧ createSeededRandom 42 0 < 1 :=
  createSeededRandom_contract 42 (by decide) (by decide) 0

/-- C2 counterexample: the seed -100000 lies in the signed 32-bit
range, yet the first value the generator returns is negative (the
JavaScript remainder keeps the sign of the dividend), so it is not in
`[0, 1)`. -/
theorem createSeededRandom_seed_range_counterexample :
    -(2 ^ 31) ≤ (-100000 : ℤ) ∧ (-100000 : ℤ) < 2 ^ 31
    ∧ createSeededRandom (-100000) 0 < 0 := by
  refine ⟨by decide, by decide, ?_⟩
  have h : prngState (-100000) 1 = -196623 := by decide
  unfold createSeededRandom
  rw [h]
  norm_num

/-- C5: the per-octave transform applied by `applyFractalNoise` (via
`fractalSum`) matches the documented table for every input, with the
concrete values -0.2, 0.6, 0.4 and -0.1 at `v = 0.4`. -/
theorem fractalTransform_table :
    (∀ v : ℚ, fractalTransform "None" v = v)
    ∧ (∀ v : ℚ, fractalTransform "FBM" v = v)
    ∧ (∀ v : ℚ, fractalTransform "Billow" v = |v| * 2 - 1)
    ∧ (∀ v : ℚ, fractalTransform "Ridged" v = 1 - |v|)
    ∧ (∀ v : ℚ, fractalTransform "Turbulence" v = |v|)
    ∧ (∀ v : ℚ, fractalTransform "IQ" v = min 1 (max (-1) (1 / (|v| + 1 / 10) * (1 / 5) - 1 / 2)))
    ∧ (∀ (noiseFn : ℚ → ℚ → ℚ) (x y freq amp pers lac : ℚ) (ft : String),
        fractalSum noiseFn x y ft pers lac 1 0 amp freq
          = fractalTransform ft (noiseFn (x * freq) (y * freq)) * amp)
    ∧ fractalTransform "Billow" (2 / 5) = -(1 / 5)
    ∧ fractalTransform "Ridged" (2 / 5) = 3 / 5
    ∧ fractalTransform "Turbulence" (2 / 5) = 2 / 5
    ∧ fractalTransform "IQ" (2 / 5) = -(1 / 10) := by
  have hBillow : ∀ v : ℚ, fractalTransform "Billow" v = |v| * 2 - 1 := fun v => by
    simp [fractalTransform]
  have hRidged : ∀ v : ℚ, fractalTransform "Ridged" v = 1 - |v| := fun v => by
    simp [fractalTransform]
  have hTurb : ∀ v : ℚ, fractalTransform "Turbulence" v = |v| := fun v => by
    simp [fractalTransform]
  have hIQ : ∀ v : ℚ, fractalTransform "IQ" v
      = min 1 (max (-1) (1 / (|v| + 1 / 10) * (1 / 5) - 1 / 2)) := fun v => by
    simp [fractalTransform]
  refine ⟨fun v => by simp [fractalTransform], fun v => by simp [fractalTransform],
    hBillow, hRidged, hTurb, hIQ,
    fun noiseFn x y freq amp pers lac ft => by simp [fractalSum],
    ?_, ?_, ?_, ?_⟩
  · rw [hBillow]; rw [abs_of_nonneg (by norm_num)]; norm_num
  · rw [hRidged]; rw [abs_of_nonneg (by norm_num)]; norm_num
  · rw [hTurb]; rw [abs_of_nonneg (by norm_num)]
  · rw [hIQ]; rw [abs_of_nonneg (by norm_num)]; norm_num

/-- C8 (amended): for a white kernel built from any nonnegative seed,
every returned value lies in [-1, 1]; an in-range flat index reads the
stored table entry, an out-of-range one yields 0. -/
theorem getWhiteNoiseFn_contract (seed : ℤ) (h0 : 0 ≤ seed) (w h : ℕ) (x y : ℚ) :
    (-1 ≤ getWhiteNoiseFn seed w h x y ∧ getWhiteNoiseFn seed w h x y ≤ 1)
    ∧ (0 ≤ ⌊y * (h : ℚ)⌋ * (w : ℤ) + ⌊x * (w : ℚ)⌋
        ∧ ⌊y * (h : ℚ)⌋ * (w : ℤ) + ⌊x * (w : ℚ)⌋ < (w * h : ℤ) →
        getWhiteNoiseFn seed w h x y
          = (whiteNoiseMap seed w h).getD (⌊y * (h : ℚ)⌋ * (w : ℤ) + ⌊x * (w : ℚ)⌋).toNat 0)
    ∧ (¬(0 ≤ ⌊y * (h : ℚ)⌋ * (w : ℤ) + ⌊x * (w : ℚ)⌋
        ∧ ⌊y * (h : ℚ)⌋ * (w : ℤ) + ⌊x * (w : ℚ)⌋ < (w * h : ℤ)) →
        getWhiteNoiseFn seed w h x y = 0) := by
  simp only [getWhiteNoiseFn]
  split_ifs with hin
  · have hlt : (⌊y * (h : ℚ)⌋ * (w : ℤ) + ⌊x * (w : ℚ)⌋).toNat < w * h := by
      omega
    rw [whiteNoiseMap_getD seed w h _ hlt]
    have hb := createSeededRandom_bounds seed h0 (⌊y * (h : ℚ)⌋ * (w : ℤ) + ⌊x * (w : ℚ)⌋).toNat
    refine ⟨⟨by linarith [hb.1], by linarith [hb.2]⟩, fun _ => rfl, fun hc => absurd hin hc⟩
  · exact ⟨⟨by norm_num, by norm_num⟩, fun hc => absurd hc hin, fun _ => rfl⟩

/-- Witness for C8 at seed 7 over a 2x2 table, sample point (0, 0). -/
theorem getWhiteNoiseFn_contract_witness :
    (-1 ≤ getWhiteNoiseFn 7 2 2 0 0 ∧ getWhiteNoiseFn 7 2 2 0 0 ≤ 1)
    ∧ (0 ≤ ⌊(0 : ℚ) * ((2 : ℕ) : ℚ)⌋ * ((2 : ℕ) : ℤ) + ⌊(0 : ℚ) * ((2 : ℕ) : ℚ)⌋
        ∧ ⌊(0 : ℚ) * ((2 : ℕ) : ℚ)⌋ * ((2 : ℕ) : ℤ) + ⌊(0 : ℚ) * ((2 : ℕ) : ℚ)⌋ < ((2 * 2 : ℕ) : ℤ) →
        getWhiteNoiseFn 7 2 2 0 0
          = (whiteNoiseMap 7 2 2).getD (⌊(0 : ℚ) * ((2 : ℕ) : ℚ)⌋ * ((2 : ℕ) : ℤ) + ⌊(0 : ℚ) * ((2 : ℕ) : ℚ)⌋).toNat 0)
    ∧ (¬(0 ≤ ⌊(0 : ℚ) * ((2 : ℕ) : ℚ)⌋ * ((2 : ℕ) : ℤ) + ⌊(0 : ℚ) * ((2 : ℕ) : ℚ)⌋
        ∧ ⌊(0 : ℚ) * ((2 : ℕ) : ℚ)⌋ * ((2 : ℕ) : ℤ) + ⌊(0 : ℚ) * ((2 : ℕ) : ℚ)⌋ < ((2 * 2 : ℕ) : ℤ)) →
        getWhiteNoiseFn 7 2 2 0 0 = 0) :=
  getWhiteNoiseFn_contract 7 (by decide) 2 2 0 0

/-- C8 counterexample: at the negative seed -100000 the first table
entry of a 1x1 white kernel, returned by `evaluate(0, 0)`, is below
-1, violating the claimed bound for "any seed". -/
theorem getWhiteNoiseFn_bounds_counterexample :
    getWhiteNoiseFn (-100000) 1 1 0 0 < -1 := by
  have h : prngState (-100000) 1 = -196623 := by decide
  have hmap : (whiteNoiseMap (-100000) 1 1).getD 0 0
      = createSeededRandom (-100000) 0 * 2 - 1 :=
    whiteNoiseMap_getD (-100000) 1 1 0 (by norm_num)
  simp only [getWhiteNoiseFn]
  norm_num
  rw [← List.getD_eq_getElem?_getD, hmap]
  unfold createSeededRandom
  rw [h]
  norm_num

/-- C9: every noise-type label other than `WhiteNoise` and `Value` —
in particular `Perlin`, `Worley`, `Cellular` and any unrecognized
label — selects the same kernel as `Simplex`, seeded identically. -/
theorem noise_label_aliasing (noise2D : (ℕ → ℚ) → ℚ → ℚ → ℚ) (cosPi : ℚ → ℚ)
    (seed : ℤ) (w h : ℕ) (label : String)
    (h1 : label ≠ "WhiteNoise") (h2 : label ≠ "Value") :
    getActiveNoiseFunction noise2D cosPi label seed w h
      = getActiveNoiseFunction noise2D cosPi "Simplex" seed w h := by
  unfold getActiveNoiseFunction
  by_cases hs : label = "Simplex"
  · simp [hs]
  · simp [hs, h1, h2]

/-- Witness for C9 at the label `Perlin`. -/
theorem noise_label_aliasing_witness :
    getActiveNoiseFunction zeroNoise2D oneCosPi "Perlin" 42 4 4
      = getActiveNoiseFunction zeroNoise2D oneCosPi "Simplex" 42 4 4 :=
  noise_label_aliasing zeroNoise2D oneCosPi 42 4 4 "Perlin" (by decide) (by decide)

/-- At `x = y = 0` every interpolation weight of the value kernel is
`t = 0`, so (for any cosine model with `cosPi 0 = 1`) the kernel
returns the corner value `values[0][0]`, rescaled to `[-1, 1]`. -/
theorem getBasicValueNoiseFn_zero_corner (cosPi : ℚ → ℚ) (hc : cosPi 0 = 1) (seed : ℤ) :
    getBasicValueNoiseFn cosPi seed 16 0 0 = valueGrid seed 16 0 0 * 2 - 1 := by
  simp only [getBasicValueNoiseFn, interpolate]
  norm_num [hc]

/-- At `x = 1, y = 0` the weights are again `t = 0`, but the corner
read is `values[16 % 17][0] = values[16][0]`: a different grid entry
than at `x = 0`. -/
theorem getBasicValueNoiseFn_one_corner (cosPi : ℚ → ℚ) (hc : cosPi 0 = 1) (seed : ℤ) :
    getBasicValueNoiseFn cosPi seed 16 1 0 = valueGrid seed 16 16 0 * 2 - 1 := by
  simp only [getBasicValueNoiseFn, interpolate]
  norm_num [hc]
  have h16 : (Int.tmod 16 17).toNat = 16 := by decide
  rw [h16]

set_option maxRecDepth 100000 in
/-- At seed 42 the two corners `values[0][0]` and `values[16][0]`
hold different draws. -/
theorem valueGrid_seed42_corners_ne : valueGrid 42 16 0 0 ≠ valueGrid 42 16 16 0 := by
  have h1 : prngState 42 1 = 206659 := by decide
  have h2 : prngState 42 273 = 63603 := by decide
  unfold valueGrid createSeededRandom
  norm_num [h1, h2]

/-- The corner index for `x = 0` is 0. -/
theorem valueCornerIndex_zero : valueCornerIndex 16 0 = 0 := by
  simp only [valueCornerIndex]
  norm_num

/-- The corner index for `x = 1` is 16, not 0. -/
theorem valueCornerIndex_one : valueCornerIndex 16 1 = 16 := by
  simp only [valueCornerIndex]
  have hf : ⌊(1 : ℚ) * ((16 : ℕ) : ℚ)⌋ = 16 := by norm_num
  rw [hf]
  decide

/-- C4 (amended): for the value kernel with `gridSize = 16`,
`evaluate(0,0)` reads the corner at index 0 while `evaluate(1,0)`
reads the corner at index `16 = 16 mod 17`; the modulo-`(gridSize+1)`
wrap only keeps the upper corner index in range (`x1 = 17` wraps to
0), so the x = 0 and x = 1 corner indices differ and the kernel does
not tile with period 1 (at seed 42 the two evaluations differ). -/
theorem value_noise_corner_behavior (cosPi : ℚ → ℚ) (hc : cosPi 0 = 1) (seed : ℤ) :
    getBasicValueNoiseFn cosPi seed 16 0 0 = valueGrid seed 16 0 0 * 2 - 1
    ∧ getBasicValueNoiseFn cosPi seed 16 1 0 = valueGrid seed 16 16 0 * 2 - 1
    ∧ valueCornerIndex 16 0 = 0
    ∧ valueCornerIndex 16 1 = 16
    ∧ Int.tmod (⌊(1 : ℚ) * ((16 : ℕ) : ℚ)⌋ + 1) ((16 : ℕ) + 1) = 0
    ∧ getBasicValueNoiseFn cosPi 42 16 0 0 ≠ getBasicValueNoiseFn cosPi 42 16 1 0 := by
  refine ⟨getBasicValueNoiseFn_zero_corner cosPi hc seed,
    getBasicValueNoiseFn_one_corner cosPi hc seed,
    valueCornerIndex_zero, valueCornerIndex_one, ?_, ?_⟩
  · have hf : ⌊(1 : ℚ) * ((16 : ℕ) : ℚ)⌋ = 16 := by norm_num
    rw [hf]
    decide
  · rw [getBasicValueNoiseFn_zero_corner cosPi hc 42, getBasicValueNoiseFn_one_corner cosPi hc 42]
    intro h
    exact valueGrid_seed42_corners_ne (by linarith)

/-- Witness for C4 at the constant cosine model and seed 7. -/
theorem value_noise_corner_behavior_witness :
    getBasicValueNoiseFn oneCosPi 7 16 0 0 = valueGrid 7 16 0 0 * 2 - 1
    ∧ getBasicValueNoiseFn oneCosPi 7 16 1 0 = valueGrid 7 16 16 0 * 2 - 1
    ∧ valueCornerIndex 16 0 = 0
    ∧ valueCornerIndex 16 1 = 16
    ∧ Int.tmod (⌊(1 : ℚ) * ((16 : ℕ) : ℚ)⌋ + 1) ((16 : ℕ) + 1) = 0
    ∧ getBasicValueNoiseFn oneCosPi 42 16 0 0 ≠ getBasicValueNoiseFn oneCosPi 42 16 1 0 :=
  value_noise_corner_behavior oneCosPi rfl 7

/-- C4 counterexample: the corner indices used for `x = 0` and `x = 1`
are 0 and 16 — they do not agree modulo `gridSize + 1 = 17` — and at
seed 42 `evaluate(0,0) ≠ evaluate(1,0)` (instantiated at the constant
cosine model, which agrees with `t ↦ Math.cos(t·π)` at `t = 0`, the
only weight these evaluations use). -/
theorem value_noise_tiling_counterexample :
    valueCornerIndex 16 0 = 0 ∧ valueCornerIndex 16 1 = 16
    ∧ valueCornerIndex 16 0 ≠ valueCornerIndex 16 1
    ∧ getBasicValueNoiseFn oneCosPi 42 16 0 0 ≠ getBasicValueNoiseFn oneCosPi 42 16 1 0 := by
  refine ⟨valueCornerIndex_zero, valueCornerIndex_one, ?_, ?_⟩
  · rw [valueCornerIndex_zero, valueCornerIndex_one]
    decide
  · rw [getBasicValueNoiseFn_zero_corner oneCosPi rfl 42,
      getBasicValueNoiseFn_one_corner oneCosPi rfl 42]
    intro h
    exact valueGrid_seed42_corners_ne (by linarith)

/-- The final clamp always lands in `[0, 1]` (over the rational
model). -/
theorem clamp01_mem (v : ℚ) : 0 ≤ clamp01 v ∧ clamp01 v ≤ 1 := by
  unfold clamp01
  constructor
  · exact le_max_left 0 _
  · exact max_le (by norm_num) (min_le_left 1 v)

/-- A color ramp channel `floor(bg * (1 - v) + 255 * v)` stays in
`[0, 255]` for a byte background component and `v ∈ [0, 1]`. -/
theorem rampChannel_bounds (c : ℕ) (hc : c ≤ 255) (v : ℚ) (h0 : 0 ≤ v) (h1 : v ≤ 1) :
    0 ≤ ⌊(c : ℚ) * (1 - v) + 255 * v⌋ ∧ ⌊(c : ℚ) * (1 - v) + 255 * v⌋ ≤ 255 := by
  have hcq : (c : ℚ) ≤ 255 := by exact_mod_cast hc
  have hc0 : (0 : ℚ) ≤ (c : ℚ) := by positivity
  constructor
  · apply Int.le_floor.mpr
    push_cast
    nlinarith
  · have hle : (c : ℚ) * (1 - v) + 255 * v ≤ 255 := by nlinarith
    calc ⌊(c : ℚ) * (1 - v) + 255 * v⌋ ≤ ⌊(255 : ℚ)⌋ := Int.floor_le_floor hle
    _ = 255 := by norm_num

/-- C3 (amended): for valid parameters with persistence strictly
inside (0, 1) — at persistence exactly 1 the JavaScript computation
yields NaN, see the counterexample — the clamped per-pixel noise
value lies in [0, 1], every color channel written to the buffer lies
in [0, 255], and alpha is always 255. -/
theorem clamp_invariant (noise2D : (ℕ → ℚ) → ℚ → ℚ → ℚ) (cosPi : ℚ → ℚ)
    (p : NoiseParams) (x y : ℕ) (r g b : ℕ)
    (hp0 : 0 < p.persistence) (hp1 : p.persistence < 1) (ha : 0 < p.amplitude)
    (hbg : hexToRgb p.backgroundColor = some (r, g, b)) :
    (0 ≤ clamp01 (pixelNoiseVal noise2D cosPi p x y)
      ∧ clamp01 (pixelNoiseVal noise2D cosPi p x y) ≤ 1)
    ∧ (0 ≤ (pixelRGBA noise2D cosPi p (r, g, b) x y).1
      ∧ (pixelRGBA noise2D cosPi p (r, g, b) x y).1 ≤ 255)
    ∧ (0 ≤ (pixelRGBA noise2D cosPi p (r, g, b) x y).2.1
      ∧ (pixelRGBA noise2D cosPi p (r, g, b) x y).2.1 ≤ 255)
    ∧ (0 ≤ (pixelRGBA noise2D cosPi p (r, g, b) x y).2.2.1
      ∧ (pixelRGBA noise2D cosPi p (r, g, b) x y).2.2.1 ≤ 255)
    ∧ (pixelRGBA noise2D cosPi p (r, g, b) x y).2.2.2 = 255 := by
  obtain ⟨hr, hg, hb⟩ := hexToRgb_components_le p.backgroundColor r g b hbg
  have hv := clamp01_mem (pixelNoiseVal noise2D cosPi p x y)
  refine ⟨hv, ?_, ?_, ?_, rfl⟩
  · exact rampChannel_bounds r hr _ hv.1 hv.2
  · exact rampChannel_bounds g hg _ hv.1 hv.2
  · exact rampChannel_bounds b hb _ hv.1 hv.2

/-- Witness for C3 at `sampleParams`, pixel (0, 0). -/
theorem clamp_invariant_witness :
    (0 ≤ clamp01 (pixelNoiseVal zeroNoise2D oneCosPi sampleParams 0 0)
      ∧ clamp01 (pixelNoiseVal zeroNoise2D oneCosPi sampleParams 0 0) ≤ 1)
    ∧ (0 ≤ (pixelRGBA zeroNoise2D oneCosPi sampleParams (0, 0, 0) 0 0).1
      ∧ (pixelRGBA zeroNoise2D oneCosPi sampleParams (0, 0, 0) 0 0).1 ≤ 255)
    ∧ (0 ≤ (pixelRGBA zeroNoise2D oneCosPi sampleParams (0, 0, 0) 0 0).2.1
      ∧ (pixelRGBA zeroNoise2D oneCosPi sampleParams (0, 0, 0) 0 0).2.1 ≤ 255)
    ∧ (0 ≤ (pixelRGBA zeroNoise2D oneCosPi sampleParams (0, 0, 0) 0 0).2.2.1
      ∧ (pixelRGBA zeroNoise2D oneCosPi sampleParams (0, 0, 0) 0 0).2.2.1 ≤ 255)
    ∧ (pixelRGBA zeroNoise2D oneCosPi sampleParams (0, 0, 0) 0 0).2.2.2 = 255 :=
  clamp_invariant zeroNoise2D oneCosPi sampleParams 0 0 0 0 0
    (by norm_num [sampleParams]) (by norm_num [sampleParams])
    (by norm_num [sampleParams]) rfl

/-- C3 counterexample: at `persistenceOneParams` — positive
dimensions, one octave, persistence 1, which the claimed range (0, 1]
admits — the JavaScript float computation of the clamped noise value
at pixel (0, 0) is NaN, not a number in [0, 1]: the normalization
evaluates `1 / (1 - 1) = Infinity` and then `Infinity / Infinity`. -/
theorem clamp_invariant_counterexample :
    0 < persistenceOneParams.persistence ∧ persistenceOneParams.persistence ≤ 1
    ∧ 0 < persistenceOneParams.width ∧ 0 < persistenceOneParams.height
    ∧ 1 ≤ persistenceOneParams.octaves ∧ 0 < persistenceOneParams.amplitude
    ∧ jsClamp01 (jsPixelNoiseVal jsZeroSimplex jsZeroValue persistenceOneParams 0 0)
        = JsNum.nan := by
  refine ⟨by norm_num [persistenceOneParams], by norm_num [persistenceOneParams],
    by norm_num [persistenceOneParams], by norm_num [persistenceOneParams],
    by norm_num [persistenceOneParams], by norm_num [persistenceOneParams], ?_⟩
  simp [jsPixelNoiseVal, jsGetActiveNoiseFunction, jsApplyFractalNoise,
    jsFractalSum, jsFractalTransform, jsGetWhiteNoiseFn, jsClamp01,
    persistenceOneParams]
  norm_num [JsNum.add, JsNum.sub, JsNum.mul, JsNum.div, JsNum.min, JsNum.max]

/-- C6: with the warp enabled, the per-pixel noise value is the
unwarped evaluation at coordinates displaced, once, by the two
auxiliary Simplex kernels seeded at `seed + 100` and `seed + 200`,
sampled at `(nx·5, ny·5)` and scaled by the fixed constant
`0.05 = 1/20`; the frequency multiplication happens only afterwards,
inside `noiseValAtCoords`. -/
theorem domain_warp_decomposition (noise2D : (ℕ → ℚ) → ℚ → ℚ → ℚ) (cosPi : ℚ → ℚ)
    (p : NoiseParams) (x y : ℕ) (hw : p.domainWrap = true) :
    pixelNoiseVal noise2D cosPi p x y
      = noiseValAtCoords noise2D cosPi p
          ((x : ℚ) / (p.width : ℚ)
            + getSimplexNoiseFn noise2D (p.seed + 100)
                (((x : ℚ) / (p.width : ℚ)) * 5) (((y : ℚ) / (p.height : ℚ)) * 5) * (1 / 20))
          ((y : ℚ) / (p.height : ℚ)
            + getSimplexNoiseFn noise2D (p.seed + 200)
                (((x : ℚ) / (p.width : ℚ)) * 5) (((y : ℚ) / (p.height : ℚ)) * 5) * (1 / 20)) := by
  simp only [pixelNoiseVal, hw, if_true]

/-- Witness for C6 at `warpSampleParams`, pixel (1, 2). -/
theorem domain_warp_decomposition_witness :
    pixelNoiseVal zeroNoise2D oneCosPi warpSampleParams 1 2
      = noiseValAtCoords zeroNoise2D oneCosPi warpSampleParams
          ((1 : ℚ) / (warpSampleParams.width : ℚ)
            + getSimplexNoiseFn zeroNoise2D (warpSampleParams.seed + 100)
                (((1 : ℚ) / (warpSampleParams.width : ℚ)) * 5)
                (((2 : ℚ) / (warpSampleParams.height : ℚ)) * 5) * (1 / 20))
          ((2 : ℚ) / (warpSampleParams.height : ℚ)
            + getSimplexNoiseFn zeroNoise2D (warpSampleParams.seed + 200)
                (((1 : ℚ) / (warpSampleParams.width : ℚ)) * 5)
                (((2 : ℚ) / (warpSampleParams.height : ℚ)) * 5) * (1 / 20)) := by
  have h := domain_warp_decomposition zeroNoise2D oneCosPi warpSampleParams 1 2 rfl
  exact_mod_cast h

/-- C7: non-positive dimensions, or non-positive octaves with a
fractal type other than `None`, are rejected with a validation error
before `generateNoiseImage` is ever invoked (so no pixel is computed
and no partial buffer exists); parameters passing validation go
straight to `generateNoiseImage`. -/
theorem validation_precedes_pixels (noise2D : (ℕ → ℚ) → ℚ → ℚ → ℚ) (cosPi : ℚ → ℚ)
    (width height seed : ℤ) (frequency amplitude : ℚ)
    (backgroundColor noiseType fractalType : String) (domainWrap : Bool)
    (octaves : ℤ) (persistence lacunarity : ℚ) :
    ((width ≤ 0 ∨ height ≤ 0) →
      handleGenerateNoise noise2D cosPi width height seed frequency amplitude
          backgroundColor noiseType fractalType domainWrap octaves persistence lacunarity
        = Except.error "Width and Height must be positive numbers.")
    ∧ (0 < width → 0 < height → fractalType ≠ "None" → octaves ≤ 0 →
      handleGenerateNoise noise2D cosPi width height seed frequency amplitude
          backgroundColor noiseType fractalType domainWrap octaves persistence lacunarity
        = Except.error "Octaves must be a positive number for fractal noise types.")
    ∧ (0 < width → 0 < height → (fractalType ≠ "None" → 0 < octaves) →
      handleGenerateNoise noise2D cosPi width height seed frequency amplitude
          backgroundColor noiseType fractalType domainWrap octaves persistence lacunarity
        = generateNoiseImage noise2D cosPi
            { width := width, height := height, seed := seed, frequency := frequency,
              amplitude := amplitude, backgroundColor := backgroundColor,
              noiseType := noiseType, fractalType := fractalType, domainWrap := domainWrap,
              octaves := if fractalType = "None" then 1 else octaves,
              persistence := persistence, lacunarity := lacunarity }) := by
  refine ⟨fun hbad => ?_, fun hw hh hf ho => ?_, fun hw hh ho => ?_⟩
  · unfold handleGenerateNoise
    rw [if_pos hbad]
  · unfold handleGenerateNoise
    rw [if_neg (by omega), if_pos ⟨hf, ho⟩]
  · unfold handleGenerateNoise
    rw [if_neg (by omega), if_neg (fun hc => by have := ho hc.1; omega)]

/-- Witness for C7: width 0 is rejected with the dimension error. -/
theorem validation_precedes_pixels_witness :
    handleGenerateNoise zeroNoise2D oneCosPi 0 4 42 (1 / 50) 1 "#000000" "Simplex" "FBM"
        false 4 (1 / 2) 2
      = Except.error "Width and Height must be positive numbers." :=
  (validation_precedes_pixels zeroNoise2D oneCosPi 0 4 42 (1 / 50) 1 "#000000" "Simplex"
    "FBM" false 4 (1 / 2) 2).1 (Or.inl (by norm_num))

/-- C1: generation is a pure function of the parameters — the model
threads the only mutable state of the source (the per-call PRNG
closure) explicitly, and no clock or global randomness is read — so
two evaluations on the same valid parameters return the identical
full RGBA buffer. -/
theorem generateNoiseImage_deterministic (noise2D : (ℕ → ℚ) → ℚ → ℚ → ℚ) (cosPi : ℚ → ℚ)
    (p : NoiseParams) (hw : 0 < p.width) (hh : 0 < p.height)
    (hbg : isHexColorString p.backgroundColor = true)
    (hoct : p.fractalType ≠ "None" → 1 ≤ p.octaves) :
    generateNoiseImage noise2D cosPi p = generateNoiseImage noise2D cosPi p
    ∧ ∃ buffer, generateNoiseImage noise2D cosPi p = Except.ok buffer := by
  refine ⟨rfl, ?_⟩
  have h := hexToRgb_isSome_eq p.backgroundColor
  rw [hbg] at h
  obtain ⟨rgb, hrgb⟩ := Option.isSome_iff_exists.mp h
  exact ⟨renderBuffer noise2D cosPi p rgb, by unfold generateNoiseImage; rw [hrgb]⟩

/-- Witness for C1 at `sampleParams`. -/
theorem generateNoiseImage_deterministic_witness :
    generateNoiseImage zeroNoise2D oneCosPi sampleParams
      = generateNoiseImage zeroNoise2D oneCosPi sampleParams
    ∧ ∃ buffer, generateNoiseImage zeroNoise2D oneCosPi sampleParams = Except.ok buffer :=
  generateNoiseImage_deterministic zeroNoise2D oneCosPi sampleParams
    (by norm_num [sampleParams]) (by norm_num [sampleParams]) (by decide)
    (fun _ => by norm_num [sampleParams])

/-- C10: a background color that is not an optional `#` followed by 3
or 6 hex digits makes `generateNoiseImage` reject with exactly
"Invalid background color format." before any pixel is produced; a
parsing one yields the full buffer rendered with the parsed byte
components, each in [0, 255]. -/
theorem background_color_validation (noise2D : (ℕ → ℚ) → ℚ → ℚ → ℚ) (cosPi : ℚ → ℚ)
    (p : NoiseParams) :
    (isHexColorString p.backgroundColor = false →
      generateNoiseImage noise2D cosPi p = Except.error "Invalid background color format.")
    ∧ (isHexColorString p.backgroundColor = true →
      ∃ r g b, hexToRgb p.backgroundColor = some (r, g, b)
        ∧ r ≤ 255 ∧ g ≤ 255 ∧ b ≤ 255
        ∧ generateNoiseImage noise2D cosPi p
            = Except.ok (renderBuffer noise2D cosPi p (r, g, b))) := by
  constructor
  · intro hf
    have h := hexToRgb_isSome_eq p.backgroundColor
    rw [hf] at h
    have hn : hexToRgb p.backgroundColor = none := by
      cases hx : hexToRgb p.backgroundColor
      · rfl
      · rw [hx] at h; simp at h
    unfold generateNoiseImage
    rw [hn]
  · intro ht
    have h := hexToRgb_isSome_eq p.backgroundColor
    rw [ht] at h
    obtain ⟨⟨r, g, b⟩, hrgb⟩ := Option.isSome_iff_exists.mp h
    obtain ⟨hr, hg, hb⟩ := hexToRgb_components_le _ r g b hrgb
    exact ⟨r, g, b, hrgb, hr, hg, hb, by unfold generateNoiseImage; rw [hrgb]⟩

/-- Witness for C10: the invalid string "zzz" is rejected; the valid
"#000000" renders with components (0, 0, 0). -/
theorem background_color_validation_witness :
    (generateNoiseImage zeroNoise2D oneCosPi { sampleParams with backgroundColor := "zzz" }
        = Except.error "Invalid background color format.")
    ∧ (∃ r g b, hexToRgb sampleParams.backgroundColor = some (r, g, b)
        ∧ r ≤ 255 ∧ g ≤ 255 ∧ b ≤ 255
        ∧ generateNoiseImage zeroNoise2D oneCosPi sampleParams
            = Except.ok (renderBuffer zeroNoise2D oneCosPi sampleParams (r, g, b))) :=
  ⟨(background_color_validation zeroNoise2D oneCosPi
      { sampleParams with backgroundColor := "zzz" }).1 (by decide),
   (background_color_validation zeroNoise2D oneCosPi sampleParams).2 (by decide)⟩
